import Mathlib

/-!
Verification of the rbd-mirror LeaderWatcher election mechanism
(src/tools/rbd_mirror/LeaderWatcher.h) against its specification.

The header gives the full interface, the state diagram, and the inline
bodies of `LeaderLock::is_leader`, `LeaderLock::post_acquire_lock_handler`,
`LeaderLock::pre_release_lock_handler`, `LeaderLock::post_release_lock_handler`,
`HandlePayloadVisitor::operator()` and `C_GetLocker::finish`.  Those are
embedded directly from the source.  Behaviour implemented in the
corresponding .cc file (init/shut_down/release_leader drivers, the
handle_payload overload bodies, handle_get_locker, and the wire encoding of
the notification payloads) is modelled from the spec, as marked on each
definition.
-/

namespace LeaderElection

/-- Managed-lock states.  Modelled from the spec: the external
`librbd::ManagedLock` tracks an acquire/release cycle through the states
unlocked, acquiring, post-acquiring, locked, pre-releasing and releasing;
the header only queries it through `is_state_post_acquiring()` and
`is_state_locked()`. -/
inductive State
  | unlocked
  | acquiring
  | post_acquiring
  | locked
  | pre_releasing
  | releasing
deriving DecidableEq, Repr

/-- Embeds `Parent::is_state_post_acquiring()` (ManagedLock state query). -/
def is_state_post_acquiring (s : State) : Bool :=
  decide (s = State.post_acquiring)

/-- Embeds `Parent::is_state_locked()` (ManagedLock state query). -/
def is_state_locked (s : State) : Bool :=
  decide (s = State.locked)

/-- Embeds `LeaderLock::is_leader` (LeaderWatcher.h lines 101-104):
`return Parent::is_state_post_acquiring() || Parent::is_state_locked();`. -/
def is_leader (s : State) : Bool :=
  is_state_post_acquiring s || is_state_locked s

/-! ### LeaderLock hook handlers (LeaderWatcher.h lines 107-122)

The hook bodies are sequential: we embed each as the trace of observable
events it performs, in order, together with the lock-state update. -/

/-- Observable events of `post_acquire_lock_handler`: the guarded state
transition, and the single call into
`watcher->handle_post_acquire_leader_lock(r, on_finish)`.  Contexts are
abstracted as numeric identifiers. -/
inductive AcqEvent
  | setStatePostAcquiring
  | callWatcherHandler (r : Int) (ctx : Nat)
deriving DecidableEq, Repr

/-- Embeds `LeaderLock::post_acquire_lock_handler(int r, Context *on_finish)`
(lines 107-114): if `r == 0` it sets the lock state to post-acquiring under
the lock mutex, then unconditionally forwards `r` and `on_finish` to
`watcher->handle_post_acquire_leader_lock`. -/
def post_acquire_lock_handler (r : Int) (ctx : Nat) : List AcqEvent :=
  (if r = 0 then [AcqEvent.setStatePostAcquiring] else [])
    ++ [AcqEvent.callWatcherHandler r ctx]

/-- Effect of one `AcqEvent` on the managed-lock state. -/
def apply_acq_event (s : State) : AcqEvent → State
  | AcqEvent.setStatePostAcquiring => State.post_acquiring
  | AcqEvent.callWatcherHandler _ _ => s

/-- Lock state after running a trace of acquire-handler events. -/
def run_acq (s : State) (es : List AcqEvent) : State :=
  es.foldl apply_acq_event s

/-- Recognizes the watcher-handler call event. -/
def AcqEvent.isCall : AcqEvent → Bool
  | AcqEvent.callWatcherHandler _ _ => true
  | _ => false

/-- Calls made by the release-path hooks into the watcher. -/
inductive ReleaseCall
  | preRelease (ctx : Nat)
  | postRelease (r : Int) (ctx : Nat)
deriving DecidableEq, Repr

/-- Embeds `LeaderLock::pre_release_lock_handler(bool shutting_down,
Context *on_finish)` (lines 115-118): the body is the single call
`watcher->handle_pre_release_leader_lock(on_finish);` and ignores the flag. -/
def pre_release_lock_handler (_shutting : Bool) (ctx : Nat) : List ReleaseCall :=
  [ReleaseCall.preRelease ctx]

/-- Embeds `LeaderLock::post_release_lock_handler(bool shutting_down, int r,
Context *on_finish)` (lines 119-122): the body is the single call
`watcher->handle_post_release_leader_lock(r, on_finish);` and ignores the
flag. -/
def post_release_lock_handler (_shutting : Bool) (r : Int) (ctx : Nat) :
    List ReleaseCall :=
  [ReleaseCall.postRelease r ctx]

/-! ### Notification payload protocol -/

/-- Notification payload variants.  The tagged union
{Heartbeat, LockAcquired, LockReleased, Unknown(raw bytes)} of
`leader_watcher::Types.h`, per the spec data model. -/
inductive Payload
  | heartbeat
  | lockAcquired
  | lockReleased
  | unknown (raw : List Nat)
deriving DecidableEq, Repr

/-- Wire tag of the Heartbeat payload.  Modelled from the spec: a stable
binary encoding tag per variant. -/
def NOTIFY_OP_HEARTBEAT : Nat := 0

/-- Wire tag of the LockAcquired payload. -/
def NOTIFY_OP_LOCK_ACQUIRED : Nat := 1

/-- Wire tag of the LockReleased payload. -/
def NOTIFY_OP_LOCK_RELEASED : Nat := 2

/-- Modelled from the spec: the wire encoding of a notification payload is
its stable tag followed by its (empty) body; an `Unknown` payload carries
the raw bytes it was decoded from. -/
def encode : Payload → List Nat
  | Payload.heartbeat => [NOTIFY_OP_HEARTBEAT]
  | Payload.lockAcquired => [NOTIFY_OP_LOCK_ACQUIRED]
  | Payload.lockReleased => [NOTIFY_OP_LOCK_RELEASED]
  | Payload.unknown raw => raw

/-- Modelled from the spec: decoding dispatches on the leading tag and an
unrecognized tag degrades to `Unknown` carrying the raw bytes rather than
failing, preserving forward compatibility. -/
def decode (bs : List Nat) : Payload :=
  match bs with
  | [] => Payload.unknown []
  | t :: rest =>
    if t = NOTIFY_OP_HEARTBEAT then Payload.heartbeat
    else if t = NOTIFY_OP_LOCK_ACQUIRED then Payload.lockAcquired
    else if t = NOTIFY_OP_LOCK_RELEASED then Payload.lockReleased
    else Payload.unknown (t :: rest)

/-- One `handle_payload(payload, on_notify_ack)` overload invocation,
recording which overload was selected and the acknowledgment context that
was passed to it. -/
inductive HandlerInvocation
  | heartbeat (on_notify_ack : Nat)
  | lockAcquired (on_notify_ack : Nat)
  | lockReleased (on_notify_ack : Nat)
  | unknown (on_notify_ack : Nat)
deriving DecidableEq, Repr

/-- The acknowledgment context a handler invocation received. -/
def HandlerInvocation.ackCtx : HandlerInvocation → Nat
  | HandlerInvocation.heartbeat a => a
  | HandlerInvocation.lockAcquired a => a
  | HandlerInvocation.lockReleased a => a
  | HandlerInvocation.unknown a => a

/-- Embeds `HandlePayloadVisitor::operator()` (lines 127-139): visiting the
decoded payload variant performs exactly one call
`leader_watcher->handle_payload(payload, on_notify_ack)`, resolved to the
overload matching the variant. -/
def HandlePayloadVisitor (p : Payload) (on_notify_ack : Nat) :
    List HandlerInvocation :=
  match p with
  | Payload.heartbeat => [HandlerInvocation.heartbeat on_notify_ack]
  | Payload.lockAcquired => [HandlerInvocation.lockAcquired on_notify_ack]
  | Payload.lockReleased => [HandlerInvocation.lockReleased on_notify_ack]
  | Payload.unknown _ => [HandlerInvocation.unknown on_notify_ack]

/-- Observable effects of a payload handler. -/
inductive Effect
  | resetLivenessTimer
  | rescheduleAcquire
  | immediateAcquire
  | ack (ctx : Nat)
deriving DecidableEq, Repr

/-- Recognizes an acknowledgment effect. -/
def Effect.isAck : Effect → Bool
  | Effect.ack _ => true
  | _ => false

/-- Modelled from the spec: the `handle_payload` overload bodies.  Heartbeat
resets the receiver's liveness timer; LockAcquired forces a wait-loop exit
and attempt reschedule; LockReleased triggers an immediate acquisition
attempt; Unknown is discarded.  Each overload completes the
`on_notify_ack` context exactly once. -/
def run_handler : HandlerInvocation → List Effect
  | HandlerInvocation.heartbeat a => [Effect.resetLivenessTimer, Effect.ack a]
  | HandlerInvocation.lockAcquired a => [Effect.rescheduleAcquire, Effect.ack a]
  | HandlerInvocation.lockReleased a => [Effect.immediateAcquire, Effect.ack a]
  | HandlerInvocation.unknown a => [Effect.ack a]

/-- Full dispatch of a delivered payload: the visitor selects the handler
overloads, each of which runs to completion. -/
def notify_dispatch (p : Payload) (on_notify_ack : Nat) : List Effect :=
  (HandlePayloadVisitor p on_notify_ack).flatMap run_handler

/-! ### GetLocker completion -/

/-- Linux errno for a missing object, as used by the source (`-ENOENT`). -/
def ENOENT : Int := 2

/-- Locker identity snapshot: (owner id, address), per the spec data
model. -/
structure Locker where
  entity : Nat
  address : Nat
deriving DecidableEq, Repr

/-- Next step scheduled by the election machine after a GetLocker
completion. -/
inductive NextAction
  | acquireLeaderLock (reset_attempt_counter : Bool)
  | breakLeaderLock
  | scheduleTimer (delay_factor : Nat)
deriving DecidableEq, Repr

/-- Modelled from the spec: `handle_get_locker` (reached through
`C_GetLocker::finish`, lines 141-152).  `-ENOENT` (object vanished)
short-circuits to a fresh acquisition attempt; otherwise the machine arms
the wait timer with a delay proportional to the attempt counter and waits
for a heartbeat, a notification, or the timeout. -/
def handle_get_locker (r : Int) (_locker : Locker) (acquire_attempts : Nat) :
    List NextAction :=
  if r = -ENOENT then [NextAction.acquireLeaderLock true]
  else [NextAction.scheduleTimer acquire_attempts]

/-! ### Instance lifecycle: init, shut_down, release_leader -/

/-- Instance roles from the spec data model. -/
inductive Role
  | Uninitialized
  | Initializing
  | Leader
  | NonLeader
  | ShuttingDown
deriving DecidableEq, Repr

/-- Per-instance lifecycle snapshot: role, watch registration, lock
ownership, pending timer task, and the acquire-attempt counter. -/
structure Instance where
  role : Role
  watch_registered : Bool
  lock_held : Bool
  timer_armed : Bool
  acquire_attempts : Nat
deriving DecidableEq, Repr

/-- The fully unwound instance: `Uninitialized`, no watch, no lock, no
timer. -/
def uninit : Instance :=
  { role := Role.Uninitialized
    watch_registered := false
    lock_held := false
    timer_armed := false
    acquire_attempts := 0 }

/-- Outcomes of the two external bootstrap operations driven by `init`. -/
structure InitEnv where
  create_r : Int
  register_r : Int
deriving DecidableEq, Repr

/-- Linux errno for an already existing object (`-EEXIST`). -/
def EEXIST : Int := 17

/-- Steps `init` performs, in order. -/
inductive InitStep
  | createObject
  | registerWatch
  | acquireLeaderLock (reset_attempt_counter : Bool)
deriving DecidableEq, Repr

/-- Modelled from the spec: `init()` performs CreateObject (treating
`-EEXIST` as success), then RegisterWatch, then triggers the first
AcquireLeaderLock attempt with the attempt counter reset; a failure of
either bootstrap step returns that error with the instance fully unwound in
`Uninitialized`.  Returns (result, final instance, steps executed). -/
def init (env : InitEnv) : Int × Instance × List InitStep :=
  if env.create_r ≠ 0 ∧ env.create_r ≠ -EEXIST then
    (env.create_r, uninit, [InitStep.createObject])
  else if env.register_r ≠ 0 then
    (env.register_r, uninit, [InitStep.createObject, InitStep.registerWatch])
  else
    (0,
     { role := Role.Initializing
       watch_registered := true
       lock_held := false
       timer_armed := false
       acquire_attempts := 0 },
     [InitStep.createObject, InitStep.registerWatch,
      InitStep.acquireLeaderLock true])

/-- Modelled from the spec: `shut_down()` cancels any pending timer,
releases the lock if held, unregisters the watch and shuts the lock object
down, ending fully unwound in `Uninitialized`; it is idempotent and returns
success from `Leader`, `NonLeader`, or mid-acquisition.  Returns (result,
final instance). -/
def shut_down (s : Instance) : Int × Instance :=
  if s.role = Role.Uninitialized then (0, s)
  else (0, uninit)

/-- Modelled from the spec: `release_leader()` voluntarily relinquishes the
lock while `Leader`, re-entering the acquisition loop as `NonLeader`; when
the instance is not leader it is a no-op returning success. -/
def release_leader (s : Instance) : Int × Instance :=
  if s.role = Role.Leader then
    (0, { s with role := Role.NonLeader, lock_held := false,
                 timer_armed := false })
  else (0, s)

/-! ### Multi-instance safety model

Modelled from the spec: a set of instances shares one lock object whose
external primitive provides linearizable acquire/release/break on that
single object.  Each interleaved atomic step is one mutex-protected state
transition of one instance or one linearized lock-primitive operation.
`alive i = false` models an instance that is dead or has been fenced
(blacklisted) at the storage layer; breaking a lock requires its holder to
be fenced first, per the blacklist-on-break mode, and only an alive
instance can observe `is_leader()`. -/
structure Sys (n : Nat) where
  holder : Option (Fin n)
  lockState : Fin n → State
  alive : Fin n → Bool

/-- One interleaved atomic step of the shared-lock system. -/
inductive Step {n : Nat} : Sys n → Sys n → Prop
  | startAcquire (s : Sys n) (i : Fin n)
      (halive : s.alive i = true) (hst : s.lockState i = State.unlocked) :
      Step s { s with lockState := Function.update s.lockState i State.acquiring }
  | acquireOk (s : Sys n) (i : Fin n)
      (halive : s.alive i = true) (hst : s.lockState i = State.acquiring)
      (hfree : s.holder = none) :
      Step s { s with holder := some i,
                      lockState := Function.update s.lockState i State.post_acquiring }
  | acquireFail (s : Sys n) (i : Fin n)
      (hst : s.lockState i = State.acquiring) :
      Step s { s with lockState := Function.update s.lockState i State.unlocked }
  | acquireComplete (s : Sys n) (i : Fin n)
      (hst : s.lockState i = State.post_acquiring) :
      Step s { s with lockState := Function.update s.lockState i State.locked }
  | startRelease (s : Sys n) (i : Fin n)
      (hst : s.lockState i = State.locked) :
      Step s { s with lockState := Function.update s.lockState i State.pre_releasing }
  | releaseRpc (s : Sys n) (i : Fin n)
      (hst : s.lockState i = State.pre_releasing) :
      Step s { s with lockState := Function.update s.lockState i State.releasing }
  | releaseDone (s : Sys n) (i : Fin n)
      (hst : s.lockState i = State.releasing) (hold : s.holder = some i) :
      Step s { s with holder := none,
                      lockState := Function.update s.lockState i State.unlocked }
  | crash (s : Sys n) (i : Fin n) :
      Step s { s with alive := Function.update s.alive i false }
  | breakLock (s : Sys n) (i : Fin n)
      (hold : s.holder = some i) (hdead : s.alive i = false) :
      Step s { s with holder := none }

/-- The initial system: lock unheld, every instance alive and unlocked. -/
def initSys (n : Nat) : Sys n :=
  { holder := none, lockState := fun _ => State.unlocked, alive := fun _ => true }

/-- States of the shared-lock system reachable from the initial one. -/
inductive Reachable {n : Nat} : Sys n → Prop
  | init : Reachable (initSys n)
  | step {s t : Sys n} : Reachable s → Step s t → Reachable t

/-- Key invariant: every alive instance whose lock adapter reports
leadership is the instance the shared object's lock primitive records as
holder. -/
def HolderInv {n : Nat} (s : Sys n) : Prop :=
  ∀ i : Fin n, s.alive i = true → is_leader (s.lockState i) = true →
    s.holder = some i

/-- A concrete one-instance system: the initial state. -/
def wit0 : Sys 1 := initSys 1

/-- The one-instance system after instance 0 starts acquiring. -/
def wit1 : Sys 1 :=
  { wit0 with lockState := Function.update wit0.lockState 0 State.acquiring }

/-- The one-instance system after the lock RPC of instance 0 succeeds. -/
def wit2 : Sys 1 :=
  { wit1 with holder := some 0,
              lockState := Function.update wit1.lockState 0 State.post_acquiring }

/-! ## Theorems -/

/-- The initial system satisfies the holder invariant: nobody is leader. -/
theorem holder_inv_init (n : Nat) : HolderInv (initSys n) := by
  intro i _ hl
  simp [initSys, is_leader, is_state_post_acquiring, is_state_locked] at hl

/-- Every interleaved atomic step preserves the holder invariant. -/
theorem holder_inv_step {n : Nat} {s t : Sys n} (hs : HolderInv s)
    (hstep : Step s t) : HolderInv t := by
  cases hstep with
  | startAcquire i halive hst =>
    intro j hj hl
    by_cases hij : j = i
    · subst hij
      simp [Function.update, is_leader, is_state_post_acquiring,
        is_state_locked] at hl
    · simp only [Function.update_noteq hij] at hl
      exact hs j hj hl
  | acquireOk i halive hst hfree =>
    intro j hj hl
    by_cases hij : j = i
    · subst hij; rfl
    · simp only [Function.update_noteq hij] at hl
      have := hs j hj hl
      rw [hfree] at this
      exact absurd this (by simp)
  | acquireFail i hst =>
    intro j hj hl
    by_cases hij : j = i
    · subst hij
      simp [Function.update, is_leader, is_state_post_acquiring,
        is_state_locked] at hl
    · simp only [Function.update_noteq hij] at hl
      exact hs j hj hl
  | acquireComplete i hst =>
    intro j hj hl
    by_cases hij : j = i
    · subst hij
      exact hs j hj (by simp [hst, is_leader, is_state_post_acquiring])
    · simp only [Function.update_noteq hij] at hl
      exact hs j hj hl
  | startRelease i hst =>
    intro j hj hl
    by_cases hij : j = i
    · subst hij
      simp [Function.update, is_leader, is_state_post_acquiring,
        is_state_locked] at hl
    · simp only [Function.update_noteq hij] at hl
      exact hs j hj hl
  | releaseRpc i hst =>
    intro j hj hl
    by_cases hij : j = i
    · subst hij
      simp [Function.update, is_leader, is_state_post_acquiring,
        is_state_locked] at hl
    · simp only [Function.update_noteq hij] at hl
      exact hs j hj hl
  | releaseDone i hst hold =>
    intro j hj hl
    by_cases hij : j = i
    · subst hij
      simp [Function.update, is_leader, is_state_post_acquiring,
        is_state_locked] at hl
    · simp only [Function.update_noteq hij] at hl
      have := hs j hj hl
      rw [hold] at this
      exact absurd (Option.some.inj this) (fun h => hij h.symm)
  | crash i =>
    intro j hj hl
    by_cases hij : j = i
    · subst hij
      simp [Function.update] at hj
    · simp only [Function.update_noteq hij] at hj
      exact hs j hj hl
  | breakLock i hold hdead =>
    intro j hj hl
    have := hs j hj hl
    rw [hold] at this
    have hji : j = i := (Option.some.inj this).symm
    subst hji
    rw [hdead] at hj
    exact absurd hj (by simp)

/-- Every reachable system state satisfies the holder invariant. -/
theorem reachable_holder_inv {n : Nat} {s : Sys n} (h : Reachable s) :
    HolderInv s := by
  induction h with
  | init => exact holder_inv_init _
  | step _ hstep ih => exact holder_inv_step ih hstep

/-- C1: among instances sharing one lock object, across every sequence of
acquire/contend/break cycles (every reachable interleaving of the modelled
system), at most one alive instance observes `is_leader() == true` at any
instant: any two alive observers of leadership in one reachable state are
the same instance. -/
theorem leader_mutual_exclusion {n : Nat} (s : Sys n) (hs : Reachable s)
    (i j : Fin n) (hi : s.alive i = true) (hj : s.alive j = true)
    (hli : is_leader (s.lockState i) = true)
    (hlj : is_leader (s.lockState j) = true) : i = j := by
  have h1 := reachable_holder_inv hs i hi hli
  have h2 := reachable_holder_inv hs j hj hlj
  rw [h1] at h2
  exact Option.some.inj h2

/-- Witness for C1: a concrete reachable state in which instance 0 is an
alive leader, where the theorem applies. -/
theorem leader_mutual_exclusion_witness :
    Reachable wit2 ∧ wit2.alive 0 = true ∧
    is_leader (wit2.lockState 0) = true ∧ (0 : Fin 1) = 0 := by
  have h0 : Reachable wit0 := Reachable.init
  have h1 : Reachable wit1 :=
    Reachable.step h0 (Step.startAcquire wit0 0 rfl rfl)
  have hacq : wit1.lockState 0 = State.acquiring := by
    simp [wit1, wit0, initSys, Function.update]
  have h2 : Reachable wit2 :=
    Reachable.step h1 (Step.acquireOk wit1 0 rfl hacq rfl)
  have ha : wit2.alive 0 = true := rfl
  have hl : is_leader (wit2.lockState 0) = true := by
    simp [wit2, wit1, wit0, initSys, Function.update, is_leader,
      is_state_post_acquiring]
  exact ⟨h2, ha, hl, leader_mutual_exclusion wit2 h2 0 0 ha ha hl hl⟩

/-- C2: `is_leader()` returns true exactly in the post-acquiring and locked
states, and false in the unlocked, acquiring, pre-releasing and releasing
states. -/
theorem is_leader_iff (s : State) :
    (is_leader s = true ↔ s = State.post_acquiring ∨ s = State.locked) ∧
    is_leader State.unlocked = false ∧
    is_leader State.acquiring = false ∧
    is_leader State.pre_releasing = false ∧
    is_leader State.releasing = false := by
  refine ⟨?_, rfl, rfl, rfl, rfl⟩
  cases s <;> simp [is_leader, is_state_post_acquiring, is_state_locked]

/-- C3: on a successful lock RPC (r = 0), `post_acquire_lock_handler` sets
the lock state to post-acquiring strictly before the single call into the
watcher's post-acquire handler, and `is_leader()` is already true at that
point: the event trace is exactly [set state, call handler], and running
the prefix before the call yields a state where `is_leader` holds. -/
theorem post_acquire_sets_state_before_handler (ctx : Nat) (s : State) :
    post_acquire_lock_handler 0 ctx =
      [AcqEvent.setStatePostAcquiring, AcqEvent.callWatcherHandler 0 ctx] ∧
    is_leader (run_acq s [AcqEvent.setStatePostAcquiring]) = true := by
  exact ⟨rfl, rfl⟩

/-- C4: for every decoded payload variant the visitor invokes exactly one
`handle_payload` overload and passes it the acknowledgment context exactly
once, and the resulting handler run acknowledges the delivery exactly once
— including for an Unknown payload. -/
theorem payload_dispatch_acks_once (p : Payload) (a : Nat) :
    (HandlePayloadVisitor p a).map HandlerInvocation.ackCtx = [a] ∧
    (notify_dispatch p a).filter Effect.isAck = [Effect.ack a] := by
  cases p <;>
    simp [HandlePayloadVisitor, notify_dispatch, run_handler,
      HandlerInvocation.ackCtx, Effect.isAck, List.filter]

/-- C5: `init` performs CreateObject (an already existing object counts as
success), then RegisterWatch, then the first acquisition attempt with the
attempt counter reset; a failure of either bootstrap step returns that
error with the instance in `Uninitialized`, no watch registered and no
lock held. -/
theorem init_spec (env : InitEnv) :
    (env.create_r ≠ 0 ∧ env.create_r ≠ -EEXIST →
      init env = (env.create_r, uninit, [InitStep.createObject])) ∧
    ((env.create_r = 0 ∨ env.create_r = -EEXIST) → env.register_r ≠ 0 →
      init env = (env.register_r, uninit,
        [InitStep.createObject, InitStep.registerWatch])) ∧
    ((env.create_r = 0 ∨ env.create_r = -EEXIST) → env.register_r = 0 →
      (init env).2.2 = [InitStep.createObject, InitStep.registerWatch,
        InitStep.acquireLeaderLock true] ∧
      (init env).2.1.acquire_attempts = 0 ∧ (init env).1 = 0) ∧
    uninit.role = Role.Uninitialized ∧ uninit.watch_registered = false ∧
    uninit.lock_held = false := by
  refine ⟨?_, ?_, ?_, rfl, rfl, rfl⟩
  · intro h
    simp [init, h]
  · intro hc hr
    have hnc : ¬(env.create_r ≠ 0 ∧ env.create_r ≠ -EEXIST) := by
      rcases hc with h | h <;> simp [h]
    simp [init, hnc, hr]
  · intro hc hr
    have hnc : ¬(env.create_r ≠ 0 ∧ env.create_r ≠ -EEXIST) := by
      rcases hc with h | h <;> simp [h]
    simp [init, hnc, hr]

/-- Witness for C5: concrete runs through the create-failure path, the
register-failure path (with the already-exists create result), and the
success path. -/
theorem init_spec_witness :
    init ⟨-5, 0⟩ = (-5, uninit, [InitStep.createObject]) ∧
    init ⟨-17, -5⟩ = (-5, uninit,
      [InitStep.createObject, InitStep.registerWatch]) ∧
    (init ⟨-17, 0⟩).2.2 = [InitStep.createObject, InitStep.registerWatch,
      InitStep.acquireLeaderLock true] :=
  ⟨(init_spec ⟨-5, 0⟩).1 (by decide),
   (init_spec ⟨-17, -5⟩).2.1 (by decide) (by decide),
   ((init_spec ⟨-17, 0⟩).2.2.1 (by decide) (by decide)).1⟩

/-- C6: a GetLocker completion with `-ENOENT` proceeds directly to a fresh
lock acquisition attempt, scheduling neither a break-lock nor a wait
timer. -/
theorem get_locker_enoent_short_circuits (lk : Locker) (attempts : Nat) :
    handle_get_locker (-ENOENT) lk attempts =
      [NextAction.acquireLeaderLock true] ∧
    NextAction.breakLeaderLock ∉ handle_get_locker (-ENOENT) lk attempts ∧
    ∀ d : Nat,
      NextAction.scheduleTimer d ∉ handle_get_locker (-ENOENT) lk attempts := by
  refine ⟨rfl, ?_, ?_⟩
  · simp [handle_get_locker]
  · intro d
    simp [handle_get_locker]

/-- C7: `shut_down()` on an already shut-down instance is a no-op returning
success, `shut_down()` returns success from every state, and
`release_leader()` on a non-leader is a no-op returning success. -/
theorem shutdown_release_idempotent (s : Instance) :
    shut_down ((shut_down s).2) = (0, (shut_down s).2) ∧
    (shut_down s).1 = 0 ∧
    (s.role ≠ Role.Leader → release_leader s = (0, s)) := by
  refine ⟨?_, ?_, ?_⟩
  · by_cases h : s.role = Role.Uninitialized <;> simp [shut_down, h, uninit]
  · by_cases h : s.role = Role.Uninitialized <;> simp [shut_down, h]
  · intro h
    simp [release_leader, h]

/-- Witness for C7: a NonLeader instance with a registered watch and an
armed timer. -/
theorem shutdown_release_idempotent_witness :
    shut_down ((shut_down ⟨Role.NonLeader, true, false, true, 2⟩).2) =
      (0, (shut_down ⟨Role.NonLeader, true, false, true, 2⟩).2) ∧
    release_leader ⟨Role.NonLeader, true, false, true, 2⟩ =
      (0, ⟨Role.NonLeader, true, false, true, 2⟩) :=
  ⟨(shutdown_release_idempotent ⟨Role.NonLeader, true, false, true, 2⟩).1,
   (shutdown_release_idempotent ⟨Role.NonLeader, true, false, true, 2⟩).2.2
     (by decide)⟩

/-- C8: decoding is total and round-trips: each known variant decodes from
its encoding to an equal value, every decoded payload (Unknown included)
re-encodes and re-decodes to the same value, and a byte sequence with an
unrecognized tag decodes to `Unknown` rather than an error. -/
theorem payload_roundtrip (bs : List Nat) (t : Nat) (rest : List Nat) :
    decode (encode Payload.heartbeat) = Payload.heartbeat ∧
    decode (encode Payload.lockAcquired) = Payload.lockAcquired ∧
    decode (encode Payload.lockReleased) = Payload.lockReleased ∧
    decode (encode (decode bs)) = decode bs ∧
    (t ≠ NOTIFY_OP_HEARTBEAT → t ≠ NOTIFY_OP_LOCK_ACQUIRED →
      t ≠ NOTIFY_OP_LOCK_RELEASED →
      decode (t :: rest) = Payload.unknown (t :: rest)) := by
  refine ⟨rfl, rfl, rfl, ?_, ?_⟩
  · match bs with
    | [] => rfl
    | t₀ :: rest₀ =>
      by_cases h0 : t₀ = NOTIFY_OP_HEARTBEAT
      · simp [decode, encode, h0]
      · by_cases h1 : t₀ = NOTIFY_OP_LOCK_ACQUIRED
        · simp [decode, encode, h0, h1, NOTIFY_OP_HEARTBEAT,
            NOTIFY_OP_LOCK_ACQUIRED]
        · by_cases h2 : t₀ = NOTIFY_OP_LOCK_RELEASED
          · simp [decode, encode, h0, h1, h2, NOTIFY_OP_HEARTBEAT,
              NOTIFY_OP_LOCK_ACQUIRED, NOTIFY_OP_LOCK_RELEASED]
          · simp [decode, encode, h0, h1, h2]
  · intro h0 h1 h2
    simp [decode, h0, h1, h2]

/-- Witness for C8: the bytes [7, 9] carry an unrecognized tag, decode to
Unknown, and round-trip. -/
theorem payload_roundtrip_witness :
    decode (encode (decode [7, 9])) = decode [7, 9] ∧
    decode [7, 9] = Payload.unknown [7, 9] :=
  ⟨(payload_roundtrip [7, 9] 7 [9]).2.2.2.1,
   (payload_roundtrip [7, 9] 7 [9]).2.2.2.2 (by decide) (by decide)
     (by decide)⟩

/-- C9: for every result r, `post_acquire_lock_handler` makes exactly one
call into the watcher's post-acquire handler with the same r and the same
continuation context; the transition to post-acquiring happens exactly when
r = 0, so a failed acquisition leaves the lock state (and `is_leader`)
unchanged while still reaching the watcher's handler. -/
theorem post_acquire_handler_exact (r : Int) (ctx : Nat) (s : State) :
    (post_acquire_lock_handler r ctx).filter AcqEvent.isCall =
      [AcqEvent.callWatcherHandler r ctx] ∧
    (AcqEvent.setStatePostAcquiring ∈ post_acquire_lock_handler r ctx ↔
      r = 0) ∧
    run_acq s (post_acquire_lock_handler r ctx) =
      (if r = 0 then State.post_acquiring else s) ∧
    is_leader (run_acq s (post_acquire_lock_handler r ctx)) =
      (decide (r = 0) || is_leader s) := by
  by_cases h : r = 0 <;>
    simp [post_acquire_lock_handler, run_acq, apply_acq_event,
      AcqEvent.isCall, List.filter, is_leader, is_state_post_acquiring,
      is_state_locked, h]

/-- C10: the shutting-down flag does not influence the release hooks: for
both flag values, `pre_release_lock_handler` and
`post_release_lock_handler` make exactly the same single call into the
watcher with identical arguments. -/
theorem release_handlers_ignore_shutdown_flag (b c : Bool) (r : Int)
    (ctx : Nat) :
    pre_release_lock_handler b ctx = pre_release_lock_handler c ctx ∧
    post_release_lock_handler b r ctx = post_release_lock_handler c r ctx ∧
    pre_release_lock_handler b ctx = [ReleaseCall.preRelease ctx] ∧
    post_release_lock_handler b r ctx = [ReleaseCall.postRelease r ctx] :=
  ⟨rfl, rfl, rfl, rfl⟩

end LeaderElection
